import Mathlib

/-!
Shallow embedding of the Translation Request Portal (a Next.js wizard for
submitting file-translation requests) and proofs about its behaviour.

The embedding covers:
* the filename-keyword classification (`fileTypeMap`, `determineFileType`),
* the intake-stage file-list operations (`handleTypeChange`,
  `handleCheckboxChange`, `handleBulkTypeChange`, `handleDone`,
  `handleDeleteSelected`, `filteredFiles`),
* the Blueprint Matcher overlay (`AnalysisPopup`) together with the portal's
  mount/unmount and timer behaviour, as a step function over a combined
  system state (`applyEvent`),
* the Review & Finalize stage's edit-mode toggle (`toggleEdit`) with its
  optional persistence collaborator.

JavaScript strings are modelled as Lean `String`; `String.prototype.includes`
becomes character-list scanning (`strIncludes`); `Array.prototype.map` with an
index argument becomes `jsMapIdx` over `Int` indices (JS numbers used as
indices); the browser `File` object is abstracted to an opaque numeric handle.
-/

namespace Portal

/-- JS `hay.includes(pat)` at the level of character lists: `pat` occurs
contiguously somewhere in `hay`. -/
def includesAux (pat : List Char) : List Char → Bool
  | [] => pat.isEmpty
  | c :: rest => pat.isPrefixOf (c :: rest) || includesAux pat rest

/-- JS `s.includes(pat)` for strings. -/
def strIncludes (s pat : String) : Bool :=
  includesAux pat.data s.data

/-- JS `s.toLowerCase()`: characterwise lowercasing (the keywords involved are
ASCII, where JS and `Char.toLower` agree). -/
def strToLower (s : String) : String :=
  String.mk (s.data.map Char.toLower)

/-- The four classification tags of `FileData['type']`. -/
inductive FileType where
  | work
  | reference
  | glossary
  | instructions
deriving DecidableEq

/-- One uploaded file: the underlying browser `File` object is abstracted to
an opaque numeric handle. -/
structure FileData where
  file : Nat
  path : String
  type : FileType
  selected : Bool
deriving DecidableEq

/-- The keyword-to-tag table `fileTypeMap`, as the ordered list of entries that
`Object.entries` yields (string keys, insertion order). -/
def fileTypeMap : List (String × FileType) :=
  [ ("reference", FileType.reference)
  , ("references", FileType.reference)
  , ("ref", FileType.reference)
  , ("refs", FileType.reference)
  , ("instruction", FileType.instructions)
  , ("instructions", FileType.instructions)
  , ("guide", FileType.instructions)
  , ("tutorial", FileType.instructions)
  , ("glossary", FileType.glossary)
  , ("term", FileType.glossary)
  , ("terms", FileType.glossary)
  , ("definitions", FileType.glossary) ]

/-- The `for (const [keyword, type] of Object.entries(fileTypeMap))` loop body
of `determineFileType`: return the tag of the first entry whose keyword occurs
in the (already lowercased) name, else fall through. -/
def scanFileTypeMap (lowerFileName : String) : List (String × FileType) → FileType
  | [] => FileType.work
  | (keyword, t) :: rest =>
    if strIncludes lowerFileName keyword then t else scanFileTypeMap lowerFileName rest

/-- `determineFileType`: lowercase the name, scan `fileTypeMap` in order,
default to `work`. -/
def determineFileType (fileName : String) : FileType :=
  scanFileTypeMap (strToLower fileName) fileTypeMap

/-- JS `array.map((x, i) => f(i, x))` starting from index `start`; indices are
JS numbers, modelled as `Int` so that out-of-range (negative) comparisons are
expressible. -/
def jsMapIdx (f : Int → FileData → FileData) : Int → List FileData → List FileData
  | _, [] => []
  | i, x :: xs => f i x :: jsMapIdx f (i + 1) xs

/-- `handleTypeChange(index, newType)`: overwrite the tag of the file at
`index`, leave every other entry alone. -/
def handleTypeChange (index : Int) (newType : FileType) (files : List FileData) :
    List FileData :=
  jsMapIdx (fun i f => if i = index then { f with type := newType } else f) 0 files

/-- `handleCheckboxChange(index)`: flip the selection flag of the file at
`index`. -/
def handleCheckboxChange (index : Int) (files : List FileData) : List FileData :=
  jsMapIdx (fun i f => if i = index then { f with selected := !f.selected } else f) 0 files

/-- `handleBulkTypeChange(newType)`: retag exactly the currently selected
files. -/
def handleBulkTypeChange (newType : FileType) (files : List FileData) : List FileData :=
  files.map fun f => if f.selected then { f with type := newType } else f

/-- `handleDone`: clear every selection flag. -/
def handleDone (files : List FileData) : List FileData :=
  files.map fun f => { f with selected := false }

/-- `handleDeleteSelected`: keep exactly the files that are not selected. -/
def handleDeleteSelected (files : List FileData) : List FileData :=
  files.filter fun f => !f.selected

/-- The `filteredFiles` memo: case-insensitive substring match of the search
term against each path. -/
def filteredFiles (files : List FileData) (searchTerm : String) : List FileData :=
  files.filter fun f => strIncludes (strToLower f.path) (strToLower searchTerm)

/-- `services.translation` of a `ProjectBlueprint` in `AnalysisPopup.tsx`. -/
structure TranslationService where
  enabled : Bool
  sourceLanguage : String
  targetLanguages : List String
deriving DecidableEq

/-- `services.review` of a `ProjectBlueprint`: both detail fields are optional
(`details: {}` in the catalog leaves them absent). -/
structure ReviewService where
  enabled : Bool
  reviewType : Option String
  reviewRounds : Option Nat
deriving DecidableEq

/-- `services.QA` of a `ProjectBlueprint`. -/
structure QAService where
  enabled : Bool
  QAType : String
  tools : List String
deriving DecidableEq

/-- The `ProjectBlueprint` record of `AnalysisPopup.tsx` (the catalog's entry
type); `sourceLocale` and `targetLocales` are optional fields. -/
structure ProjectBlueprint where
  name : String
  creationDate : String
  workgroup : String
  division : String
  product : String
  program : String
  requester : String
  translation : TranslationService
  review : ReviewService
  QA : QAService
  sourceLocale : Option String
  targetLocales : Option (List String)
deriving DecidableEq

/-- First catalog entry: "Sample Project". -/
def blueprint0 : ProjectBlueprint :=
  { name := "Sample Project"
  , creationDate := "2024-12-20"
  , workgroup := "Global Workgroup"
  , division := "Life Sciences"
  , product := "Opal Clinical"
  , program := "Clinical Trials Localization"
  , requester := "John Doe"
  , translation := { enabled := true, sourceLanguage := "English"
                   , targetLanguages := ["German", "French", "Spanish"] }
  , review := { enabled := true, reviewType := some "Linguistic Review", reviewRounds := some 2 }
  , QA := { enabled := true, QAType := "Automated QA", tools := ["Xbench", "Verifika"] }
  , sourceLocale := some "en"
  , targetLocales := some ["de", "fr", "es"] }

/-- Second catalog entry: "Regulatory Compliance Update". -/
def blueprint1 : ProjectBlueprint :=
  { name := "Regulatory Compliance Update"
  , creationDate := "2024-11-15"
  , workgroup := "EMEA Operations"
  , division := "Regulatory Affairs"
  , product := "Opal Vigilance"
  , program := "Pharmacovigilance Reporting"
  , requester := "Jane Smith"
  , translation := { enabled := true, sourceLanguage := "German"
                   , targetLanguages := ["English", "Italian", "Dutch"] }
  , review := { enabled := false, reviewType := none, reviewRounds := none }
  , QA := { enabled := true, QAType := "Manual QA", tools := ["Human Review Checklist"] }
  , sourceLocale := some "de"
  , targetLocales := some ["en", "it", "nl"] }

/-- Third catalog entry: "Marketing Campaign Localization". -/
def blueprint2 : ProjectBlueprint :=
  { name := "Marketing Campaign Localization"
  , creationDate := "2024-10-01"
  , workgroup := "Global Marketing"
  , division := "Consumer Products"
  , product := "Opal Creative"
  , program := "Q4 Product Launch"
  , requester := "Alice Johnson"
  , translation := { enabled := true, sourceLanguage := "English"
                   , targetLanguages := ["French", "Spanish", "Japanese", "Korean"] }
  , review := { enabled := true, reviewType := some "Marketing Review", reviewRounds := some 1 }
  , QA := { enabled := true, QAType := "Hybrid QA", tools := ["Linguistic QA", "Visual QA"] }
  , sourceLocale := some "en"
  , targetLocales := some ["fr", "es", "ja", "ko"] }

/-- The static blueprint catalog (`blueprints` in `AnalysisPopup.tsx`). -/
def blueprints : List ProjectBlueprint :=
  [blueprint0, blueprint1, blueprint2]

/-- The `filteredBlueprints` memo: case-insensitive substring match of the
search term across six fields. -/
def filteredBlueprints (searchTerm : String) : List ProjectBlueprint :=
  blueprints.filter fun b =>
    strIncludes (strToLower b.name) (strToLower searchTerm) ||
    strIncludes (strToLower b.workgroup) (strToLower searchTerm) ||
    strIncludes (strToLower b.division) (strToLower searchTerm) ||
    strIncludes (strToLower b.product) (strToLower searchTerm) ||
    strIncludes (strToLower b.program) (strToLower searchTerm) ||
    strIncludes (strToLower b.requester) (strToLower searchTerm)

/-- The hook state of the `AnalysisPopup` component; `timerArmed` records
whether the 3-second `setTimeout` of its `useEffect` is currently pending. -/
structure PopupState where
  isAnalyzing : Bool
  searchTerm : String
  selected : Option ProjectBlueprint
  timerArmed : Bool
deriving DecidableEq

/-- `currentStep` of `TranslationPortal`. -/
inductive Step where
  | upload
  | analyze
  | finalize
deriving DecidableEq

/-- The hook state of the root `TranslationPortal` component. -/
structure PortalState where
  files : List FileData
  searchTerm : String
  isOpen : Bool
  selectedBlueprint : Option ProjectBlueprint
  currentStep : Step
deriving DecidableEq

/-- The combined system: the portal state plus the `AnalysisPopup` hook state
when that component is mounted (`none` while the portal's early return for the
finalize step keeps it out of the tree). -/
structure SysState where
  portal : PortalState
  popup : Option PopupState
deriving DecidableEq

/-- `AnalysisPopup` is in the rendered tree unless the portal early-returns the
`CheckAndFinalizeForm` (step `finalize` with a chosen blueprint). -/
def popupMounted (p : PortalState) : Bool :=
  match p.currentStep, p.selectedBlueprint with
  | Step.finalize, some _ => false
  | _, _ => true

/-- Hook state of a freshly mounted `AnalysisPopup`, after its `useEffect` has
run once: the timer is armed exactly when the popup is open. -/
def initialPopupState (isOpen : Bool) : PopupState :=
  { isAnalyzing := true, searchTerm := "", selected := none, timerArmed := isOpen }

/-- React reconciliation of the `AnalysisPopup` after the portal state changed:
a newly mounted popup starts fresh; a surviving popup keeps its hook state, and
its `useEffect` (dependency `[isOpen]`) re-runs only when `isOpen` changed,
clearing the pending timer and arming a new one when now open; unmounting
discards the hook state and clears the timer. -/
def reconcilePopup (oldPopup : Option PopupState) (oldOpen : Bool)
    (newPortal : PortalState) : Option PopupState :=
  if popupMounted newPortal then
    match oldPopup with
    | none => some (initialPopupState newPortal.isOpen)
    | some st =>
      if oldOpen = newPortal.isOpen then some st
      else some { st with timerArmed := newPortal.isOpen }
  else
    none

/-- Install a new portal state and reconcile the popup against it. -/
def applyPortalEvent (s : SysState) (newPortal : PortalState) : SysState :=
  { portal := newPortal, popup := reconcilePopup s.popup s.portal.isOpen newPortal }

/-- The discrete events of the system: one constructor per user interaction
handler, plus the firing of the analysis timer. `drop` carries the resolved
(handle, relative path) pairs of the accepted files. -/
inductive Ev where
  | drop (dropped : List (Nat × String))
  | setSearch (term : String)
  | typeChange (index : Int) (newType : FileType)
  | checkbox (index : Int)
  | bulkType (newType : FileType)
  | done
  | deleteSel
  | next
  | cancelPopup
  | timerFire
  | popupSearch (term : String)
  | selectCard (index : Nat)
  | confirm
  | back
  | submit
deriving DecidableEq

/-- One step of the system. Popup-view events (`cancelPopup`, `popupSearch`,
`selectCard`, `confirm`) are guarded by their controls being rendered: popup
mounted, open, and past the analyzing view. `back` and `submit` require the
finalize form to be shown. Events whose guard fails leave the state unchanged
(their controls do not exist then). -/
def applyEvent (s : SysState) : Ev → SysState
  | Ev.drop dropped =>
    applyPortalEvent s
      { s.portal with
        files := s.portal.files ++ dropped.map fun d =>
          { file := d.1, path := d.2, type := determineFileType d.2, selected := false } }
  | Ev.setSearch term => applyPortalEvent s { s.portal with searchTerm := term }
  | Ev.typeChange index newType =>
    applyPortalEvent s { s.portal with files := handleTypeChange index newType s.portal.files }
  | Ev.checkbox index =>
    applyPortalEvent s { s.portal with files := handleCheckboxChange index s.portal.files }
  | Ev.bulkType newType =>
    applyPortalEvent s { s.portal with files := handleBulkTypeChange newType s.portal.files }
  | Ev.done => applyPortalEvent s { s.portal with files := handleDone s.portal.files }
  | Ev.deleteSel =>
    applyPortalEvent s { s.portal with files := handleDeleteSelected s.portal.files }
  | Ev.next => applyPortalEvent s { s.portal with isOpen := true, currentStep := Step.analyze }
  | Ev.cancelPopup =>
    match s.popup with
    | some st =>
      if s.portal.isOpen && !st.isAnalyzing then
        applyPortalEvent s { s.portal with isOpen := false }
      else s
    | none => s
  | Ev.timerFire =>
    match s.popup with
    | some st =>
      if st.timerArmed then
        { s with popup := some { st with isAnalyzing := false
                                       , selected := some blueprint0
                                       , timerArmed := false } }
      else s
    | none => s
  | Ev.popupSearch term =>
    match s.popup with
    | some st =>
      if s.portal.isOpen && !st.isAnalyzing then
        { s with popup := some { st with searchTerm := term } }
      else s
    | none => s
  | Ev.selectCard index =>
    match s.popup with
    | some st =>
      if s.portal.isOpen && !st.isAnalyzing then
        match (filteredBlueprints st.searchTerm)[index]? with
        | some b => { s with popup := some { st with selected := some b } }
        | none => s
      else s
    | none => s
  | Ev.confirm =>
    match s.popup with
    | some st =>
      if s.portal.isOpen && !st.isAnalyzing then
        match st.selected with
        | some b =>
          applyPortalEvent s
            { s.portal with selectedBlueprint := some b
                          , isOpen := false
                          , currentStep := Step.finalize }
        | none => s
      else s
    | none => s
  | Ev.back =>
    if popupMounted s.portal then s
    else applyPortalEvent s { s.portal with currentStep := Step.analyze, isOpen := true }
  | Ev.submit =>
    if popupMounted s.portal then s
    else
      applyPortalEvent s
        { s.portal with files := [], selectedBlueprint := none, currentStep := Step.upload }

/-- The initial render of the page: empty portal state, `AnalysisPopup` mounted
but closed. -/
def initState : SysState :=
  { portal := { files := [], searchTerm := "", isOpen := false
              , selectedBlueprint := none, currentStep := Step.upload }
  , popup := some (initialPopupState false) }

/-- Run a sequence of events from a state. -/
def runEvents (s : SysState) (evs : List Ev) : SysState :=
  evs.foldl applyEvent s

/-- A state the running application can actually be in. -/
def Reachable (s : SysState) : Prop :=
  ∃ evs : List Ev, s = runEvents initState evs

/-- The popup's hook state exists exactly when the component is mounted. -/
def popupConsistent (s : SysState) : Prop :=
  s.popup.isSome = popupMounted s.portal

/-- `services.review.details` of the form's blueprint record. -/
structure ReviewDetails where
  reviewType : Option String
  reviewRounds : Option Nat
deriving DecidableEq

/-- `services.QA.details` of the form's blueprint record. -/
structure QADetails where
  QAType : String
  tools : List String
deriving DecidableEq

/-- `services` of the form's blueprint record: translation carries only the
toggle; review and QA details are optional payloads. -/
structure FormServices where
  translationEnabled : Bool
  reviewEnabled : Bool
  reviewDetails : Option ReviewDetails
  qaEnabled : Bool
  qaDetails : Option QADetails
deriving DecidableEq

/-- The `ProjectBlueprint` record of `CheckAndFinalizeForm`: required locale
fields and an optional `referenceId`. -/
structure ReviewBlueprint where
  name : String
  creationDate : String
  workgroup : String
  division : String
  product : String
  program : String
  requester : String
  sourceLocale : String
  targetLocales : List String
  services : FormServices
  referenceId : Option String
deriving DecidableEq

/-- What arrived in the `onSaveChanges` prop slot of `CheckAndFinalizeForm`:
omitted (so the default parameter `() => {}` applies), an actual caller
function, or an explicitly supplied non-function value. -/
inductive SaveChangesProp where
  | absent
  | handler
  | nonFunction
deriving DecidableEq

/-- Externally observable effects of `toggleEdit`: the caller's `onSaveChanges`
invoked with the edited blueprint, or the `console.warn` of the non-function
branch. Invoking the default no-op `() => {}` produces no observable effect. -/
inductive FormEffect where
  | savedToCaller (b : ReviewBlueprint)
  | warnedNotAFunction
deriving DecidableEq

/-- Hook state of `CheckAndFinalizeForm`: the edit-mode flag and the locally
editable working copy of the blueprint. -/
structure FormState where
  isEditing : Bool
  editableBlueprint : ReviewBlueprint
deriving DecidableEq

/-- `typeof onSaveChanges === 'function'`, after the default parameter has been
applied: the default `() => {}` is a function, so only an explicitly supplied
non-function value fails the check. -/
def isFunctionProp : SaveChangesProp → Bool
  | SaveChangesProp.absent => true
  | SaveChangesProp.handler => true
  | SaveChangesProp.nonFunction => false

/-- `toggleEdit`: leaving edit mode runs the save branch (call the effective
`onSaveChanges` when it is a function, otherwise `console.warn`), then the
edit flag is flipped. Returns the new hook state and the emitted effects. -/
def toggleEdit (prop : SaveChangesProp) (s : FormState) : FormState × List FormEffect :=
  let effects :=
    if s.isEditing then
      if isFunctionProp prop then
        match prop with
        | SaveChangesProp.handler => [FormEffect.savedToCaller s.editableBlueprint]
        | _ => []
      else
        [FormEffect.warnedNotAFunction]
    else []
  ({ s with isEditing := !s.isEditing }, effects)

/-- The blueprint the read-only rendering of the form displays: always the
local working copy `editableBlueprint`. -/
def readOnlyView (s : FormState) : ReviewBlueprint :=
  s.editableBlueprint

/-- A concrete form blueprint (the first catalog entry, in the form's record
shape). -/
def reviewBlueprint0 : ReviewBlueprint :=
  { name := "Sample Project"
  , creationDate := "2024-12-20"
  , workgroup := "Global Workgroup"
  , division := "Life Sciences"
  , product := "Opal Clinical"
  , program := "Clinical Trials Localization"
  , requester := "John Doe"
  , sourceLocale := "en"
  , targetLocales := ["de", "fr", "es"]
  , services := { translationEnabled := true
                , reviewEnabled := true
                , reviewDetails := some { reviewType := some "Linguistic Review"
                                        , reviewRounds := some 2 }
                , qaEnabled := true
                , qaDetails := some { QAType := "Automated QA"
                                    , tools := ["Xbench", "Verifika"] } }
  , referenceId := none }

/-- A concrete form state in edit mode whose working copy carries a locally
edited reference id. -/
def formEdited : FormState :=
  { isEditing := true
  , editableBlueprint := { reviewBlueprint0 with referenceId := some "REF-42" } }

/-- Concrete unselected file fixture. -/
def fileA : FileData :=
  { file := 0, path := "chapter1.docx", type := FileType.work, selected := false }

/-- Concrete selected file fixture. -/
def fileB : FileData :=
  { file := 1, path := "project_glossary_v2.xlsx", type := FileType.glossary, selected := true }

/-- Concrete file fixture whose path contains "reference". -/
def fileRef : FileData :=
  { file := 2, path := "project_reference_v2.docx", type := FileType.reference, selected := false }

/-- Hook state of the popup right after the timer fired on a fresh opening:
presenting, with the first catalog entry selected. -/
def presentingFirst : PopupState :=
  { isAnalyzing := false, searchTerm := "", selected := some blueprint0, timerArmed := false }

/-- Claim C1 as stated: any filename containing a mapped keyword
(case-insensitively) classifies to that keyword's tag. -/
def claimC1Statement : Prop :=
  ∀ (fileName keyword : String) (t : FileType),
    (keyword, t) ∈ fileTypeMap →
    strIncludes (strToLower fileName) keyword = true →
    determineFileType fileName = t

/-- Claim C2 as stated: every opening of the popup from a reachable state
starts analyzing with fresh hook state, and the timer then presents the first
catalog entry. -/
def claimC2Statement : Prop :=
  ∀ (s : SysState) (e : Ev), Reachable s →
    s.portal.isOpen = false →
    (applyEvent s e).portal.isOpen = true →
    (applyEvent s e).popup = some (initialPopupState true) ∧
    (applyEvent (applyEvent s e) Ev.timerFire).popup = some presentingFirst

/-- Claim C3 as stated: with the persistence collaborator absent, leaving edit
mode logs a warning, sends nothing to a caller, returns to read-only mode, and
the read-only view shows the locally edited blueprint. -/
def claimC3Statement : Prop :=
  ∀ s : FormState, s.isEditing = true →
    FormEffect.warnedNotAFunction ∈ (toggleEdit SaveChangesProp.absent s).2 ∧
    (∀ b : ReviewBlueprint, FormEffect.savedToCaller b ∉ (toggleEdit SaveChangesProp.absent s).2) ∧
    (toggleEdit SaveChangesProp.absent s).1.isEditing = false ∧
    readOnlyView (toggleEdit SaveChangesProp.absent s).1 = s.editableBlueprint

/-- Claim C4 as stated: after each bulk action (bulk retag, delete selected)
and after Advance, every remaining file is unselected. -/
def claimC4Statement : Prop :=
  (∀ (files : List FileData) (t : FileType),
    ((handleBulkTypeChange t files).all fun f => !f.selected) = true) ∧
  (∀ files : List FileData,
    ((handleDeleteSelected files).all fun f => !f.selected) = true) ∧
  (∀ s : SysState,
    ((applyEvent s Ev.next).portal.files.all fun f => !f.selected) = true)

/-! ## Helper lemmas -/

theorem scanFileTypeMap_eq_find (s : String) (m : List (String × FileType)) :
    scanFileTypeMap s m =
      ((m.find? fun p => strIncludes s p.1).map Prod.snd).getD FileType.work := by
  induction m with
  | nil => rfl
  | cons p rest ih =>
    obtain ⟨k, t⟩ := p
    by_cases h : strIncludes s k = true
    · simp [scanFileTypeMap, List.find?_cons, h]
    · simp only [Bool.not_eq_true] at h
      simp [scanFileTypeMap, List.find?_cons, h, ih]

theorem scanFileTypeMap_eq_get (s : String) (m : List (String × FileType)) (i : Nat)
    (p : String × FileType) (hp : m[i]? = some p)
    (hmatch : strIncludes s p.1 = true)
    (hbefore : ∀ q ∈ m.take i, strIncludes s q.1 = false) :
    scanFileTypeMap s m = p.2 := by
  induction m generalizing i with
  | nil => simp at hp
  | cons hd tl ih =>
    obtain ⟨k, t⟩ := hd
    cases i with
    | zero =>
      obtain rfl : (k, t) = p := by simpa using hp
      simp [scanFileTypeMap, hmatch]
    | succ j =>
      have h0 : strIncludes s k = false :=
        hbefore (k, t) (by simp [List.take_succ_cons])
      rw [List.getElem?_cons_succ] at hp
      simp only [scanFileTypeMap, h0, Bool.false_eq_true, if_false]
      exact ih j hp fun q hq =>
        hbefore q (by simpa [List.take_succ_cons] using List.mem_cons_of_mem _ hq)

/-! ## Claims about the classification function -/

/-- Claim C5 (confirmed): `determineFileType` scans the ordered entries of
`fileTypeMap` against the lowercased path with first-match-wins semantics
(the `List.find?` equation), returning `work` when no keyword occurs; in
particular, when the entry at position `i` matches and no earlier entry does,
the result is that entry's tag, regardless of later matching entries. -/
theorem determineFileType_first_match_wins (fileName : String) :
    (determineFileType fileName =
      ((fileTypeMap.find? fun p => strIncludes (strToLower fileName) p.1).map
        Prod.snd).getD FileType.work) ∧
    ∀ (i : Nat) (p : String × FileType),
      fileTypeMap[i]? = some p →
      strIncludes (strToLower fileName) p.1 = true →
      (∀ q ∈ fileTypeMap.take i, strIncludes (strToLower fileName) q.1 = false) →
      determineFileType fileName = p.2 := by
  refine ⟨scanFileTypeMap_eq_find _ _, fun i p hp hmatch hbefore => ?_⟩
  exact scanFileTypeMap_eq_get _ _ i p hp hmatch hbefore

/-- Claim C5, witness: `"ref_and_guide.txt"` contains both `"ref"` (tag
`reference`, entry 2) and `"guide"` (tag `instructions`, entry 6); the earliest
matching entry wins, so the tag is `reference`. -/
theorem determineFileType_first_match_wins_witness :
    determineFileType "ref_and_guide.txt" = (("ref", FileType.reference) : String × FileType).2 :=
  (determineFileType_first_match_wins "ref_and_guide.txt").2 2 ("ref", FileType.reference)
    (by decide) (by decide) (by decide)

/-- Claim C1, counterexample: the claim reads every contained keyword's tag as
the result, but `"guide_ref.txt"` contains the keyword `"guide"` (mapped to
`instructions`) while `determineFileType` returns `reference`, because the
entry `("ref", reference)` precedes `("guide", instructions)` in
`fileTypeMap`. -/
theorem claimC1_refuted : ¬ claimC1Statement := fun h =>
  absurd (h "guide_ref.txt" "guide" FileType.instructions (by decide) (by decide))
    (by decide)

/-- Claim C1 (amended): a filename containing at least one mapped keyword
classifies to the tag of one of its contained keywords (the first in the
mapping's order); a filename containing no mapped keyword classifies to
`work`. -/
theorem determineFileType_some_keyword (fileName : String) :
    ((∃ p ∈ fileTypeMap, strIncludes (strToLower fileName) p.1 = true) →
      ∃ p ∈ fileTypeMap, strIncludes (strToLower fileName) p.1 = true ∧
        determineFileType fileName = p.2) ∧
    ((∀ p ∈ fileTypeMap, strIncludes (strToLower fileName) p.1 = false) →
      determineFileType fileName = FileType.work) := by
  have hbase := scanFileTypeMap_eq_find (strToLower fileName) fileTypeMap
  constructor
  · rintro ⟨p, hp, hmatch⟩
    rcases hfind : fileTypeMap.find? (fun q => strIncludes (strToLower fileName) q.1)
      with _ | q
    · exact absurd (by simpa using List.find?_eq_none.mp hfind p hp) (by simp [hmatch])
    · refine ⟨q, List.mem_of_find?_eq_some hfind, by simpa using List.find?_some hfind, ?_⟩
      rw [determineFileType, hbase, hfind]
      rfl
  · intro hall
    rcases hfind : fileTypeMap.find? (fun q => strIncludes (strToLower fileName) q.1)
      with _ | q
    · rw [determineFileType, hbase, hfind]
      rfl
    · have h1 := List.find?_some hfind
      have h2 := List.mem_of_find?_eq_some hfind
      exact absurd h1 (by simp [hall q h2])

/-- Claim C1, witness: `"terms.csv"` contains the keyword `"term"` and is
classified `glossary`; `"chapter1.docx"` contains no mapped keyword and is
classified `work`. -/
theorem determineFileType_some_keyword_witness :
    (∃ p ∈ fileTypeMap, strIncludes (strToLower "terms.csv") p.1 = true ∧
      determineFileType "terms.csv" = p.2) ∧
    determineFileType "chapter1.docx" = FileType.work :=
  ⟨(determineFileType_some_keyword "terms.csv").1
      ⟨("term", FileType.glossary), by decide, by decide⟩,
    (determineFileType_some_keyword "chapter1.docx").2 (by decide)⟩

/-! ## Claims about the intake file-list operations -/

/-- Claim C6 (confirmed): bulk set classification retags exactly the files
whose selection flag is true at call time; entrywise, a selected file keeps its
handle, path and flag and gets the new tag, and an unselected file is returned
unchanged; the list's length (hence every position) is preserved. -/
theorem handleBulkTypeChange_spec (files : List FileData) (newType : FileType) (i : Nat) :
    (handleBulkTypeChange newType files).length = files.length ∧
    (handleBulkTypeChange newType files)[i]? =
      (files[i]?).map fun f => if f.selected then { f with type := newType } else f := by
  constructor
  · simp [handleBulkTypeChange]
  · simp [handleBulkTypeChange, List.getElem?_map]

/-- Claim C7 (confirmed): delete-selected removes exactly the files whose
selection flag is true; the result is a sublist of the original list, so the
remaining files keep their original relative order. -/
theorem handleDeleteSelected_spec (files : List FileData) :
    List.Sublist (handleDeleteSelected files) files ∧
    ∀ f : FileData, f ∈ handleDeleteSelected files ↔ f ∈ files ∧ f.selected = false := by
  refine ⟨List.filter_sublist _, fun f => ?_⟩
  simp [handleDeleteSelected, List.mem_filter]

/-- Claim C7, witness: on the two-element list with `fileB` selected, delete
keeps the unselected `fileA` in place. -/
theorem handleDeleteSelected_spec_witness :
    List.Sublist (handleDeleteSelected [fileA, fileB]) [fileA, fileB] ∧
    (fileA ∈ handleDeleteSelected [fileA, fileB] ↔
      fileA ∈ [fileA, fileB] ∧ fileA.selected = false) :=
  ⟨(handleDeleteSelected_spec [fileA, fileB]).1,
    (handleDeleteSelected_spec [fileA, fileB]).2 fileA⟩

/-- Claim C8 (confirmed): the Done handler clears every selection flag and
changes no file's path, tag, handle or position. -/
theorem handleDone_spec (files : List FileData) :
    ((handleDone files).all fun f => !f.selected) = true ∧
    (handleDone files).map FileData.path = files.map FileData.path ∧
    (handleDone files).map FileData.type = files.map FileData.type ∧
    (handleDone files).map FileData.file = files.map FileData.file ∧
    (handleDone files).length = files.length := by
  refine ⟨?_, ?_, ?_, ?_, ?_⟩
  · simp [handleDone, List.all_map, Function.comp]
  · rw [handleDone, List.map_map]; rfl
  · rw [handleDone, List.map_map]; rfl
  · rw [handleDone, List.map_map]; rfl
  · simp [handleDone]

/-- A JS `includes` query with the empty pattern is always true. -/
theorem includesAux_nil (hay : List Char) : includesAux [] hay = true := by
  cases hay <;> rfl

/-- Claim C9 (confirmed): filtering by the empty search term returns the whole
list; the filter depends on the search term only through its lowercasing (so
`"REF"` and `"ref"` filter identically); and the result is always a sublist of
the underlying list, which the pure filter leaves untouched. -/
theorem filteredFiles_spec (files : List FileData) :
    filteredFiles files "" = files ∧
    (∀ t1 t2 : String, strToLower t1 = strToLower t2 →
      filteredFiles files t1 = filteredFiles files t2) ∧
    ∀ t : String, List.Sublist (filteredFiles files t) files := by
  refine ⟨?_, fun t1 t2 h => by simp only [filteredFiles, h], fun t => List.filter_sublist _⟩
  exact List.filter_eq_self.mpr fun f _ => includesAux_nil _

/-- Claim C9, witness: the uppercase term `"REF"` filters exactly like
`"ref"`, and it matches the path `"project_reference_v2.docx"`. -/
theorem filteredFiles_spec_witness :
    strToLower "REF" = strToLower "ref" ∧
    filteredFiles [fileRef] "REF" = [fileRef] := by
  have h := (filteredFiles_spec [fileRef]).2.1 "REF" "ref" (by decide)
  exact ⟨by decide, by rw [h]; decide⟩

theorem jsMapIdx_eq_self (f : Int → FileData → FileData) (start : Int) (l : List FileData)
    (h : ∀ (i : Int) (x : FileData), start ≤ i → i < start + l.length → f i x = x) :
    jsMapIdx f start l = l := by
  induction l generalizing start with
  | nil => rfl
  | cons x xs ih =>
    have hx : f start x = x :=
      h start x le_rfl (by push_cast [List.length_cons]; omega)
    rw [jsMapIdx, hx, ih (start + 1)]
    intro i y h1 h2
    refine h i y (by omega) ?_
    push_cast [List.length_cons] at h2 ⊢
    omega

/-- Claim C10 (confirmed): with an index that is negative or not below the
list's length, set classification and toggle selection return the list
unchanged (the JS `map` visits only indices `0 ≤ i < length`, none of which
can equal the out-of-range index); both handlers are total, so no error is
raised. -/
theorem outOfRange_noop (index : Int) (newType : FileType) (files : List FileData)
    (h : index < 0 ∨ (files.length : Int) ≤ index) :
    handleTypeChange index newType files = files ∧
    handleCheckboxChange index files = files := by
  have hne : ∀ i : Int, 0 ≤ i → i < 0 + (files.length : Int) → i ≠ index := by
    intro i h1 h2
    rcases h with h | h <;> omega
  constructor
  · exact jsMapIdx_eq_self _ 0 files fun i x h1 h2 => by rw [if_neg (hne i h1 h2)]
  · exact jsMapIdx_eq_self _ 0 files fun i x h1 h2 => by rw [if_neg (hne i h1 h2)]

/-- Claim C10, witness: index `-1` on a one-element list leaves it unchanged
for both handlers. -/
theorem outOfRange_noop_witness :
    ((-1 : Int) < 0 ∨ (([fileA] : List FileData).length : Int) ≤ -1) ∧
    handleTypeChange (-1) FileType.reference [fileA] = [fileA] ∧
    handleCheckboxChange (-1) [fileA] = [fileA] :=
  ⟨Or.inl (by decide),
    (outOfRange_noop (-1) FileType.reference [fileA] (Or.inl (by decide))).1,
    (outOfRange_noop (-1) FileType.reference [fileA] (Or.inl (by decide))).2⟩

theorem selected_of_bulk (newType : FileType) (f : FileData) :
    (if f.selected then { f with type := newType } else f).selected = f.selected := by
  by_cases hf : f.selected <;> simp [hf]

/-- Claim C4, counterexample: bulk set classification does not clear selection
flags — retagging the selected `fileB` leaves its flag set (the handler maps
`{ ...file, type }`, not touching `selected`; only the separate Done button
clears flags). -/
theorem claimC4_refuted : ¬ claimC4Statement := fun h =>
  absurd (h.1 [fileB] FileType.reference) (by decide)

/-- Claim C4 (amended): after delete-selected every remaining file's selection
flag is false (the selected files are gone); bulk set classification preserves
each file's selection flag unchanged; Advance (`handleNext`) leaves the file
list — including selection flags — untouched; flags are cleared by the
explicit Done action. -/
theorem selection_after_bulk_ops (files : List FileData) (newType : FileType) (s : SysState) :
    ((handleDeleteSelected files).all fun f => !f.selected) = true ∧
    (handleBulkTypeChange newType files).map FileData.selected =
      files.map FileData.selected ∧
    (applyEvent s Ev.next).portal.files = s.portal.files ∧
    ((handleDone files).all fun f => !f.selected) = true := by
  refine ⟨?_, ?_, rfl, ?_⟩
  · simp [handleDeleteSelected, List.all_eq_true, List.mem_filter]
  · rw [handleBulkTypeChange, List.map_map]
    exact List.map_congr_left fun f _ => selected_of_bulk newType f
  · simp [handleDone, List.all_map, Function.comp]

/-- Claim C3, counterexample: when the persistence collaborator is absent the
default parameter `() => {}` takes its place, so `typeof onSaveChanges ===
'function'` holds and the warning branch is dead: leaving edit mode emits no
`console.warn` at all, contradicting the claimed "skips the call while logging
a warning". -/
theorem claimC3_refuted : ¬ claimC3Statement := fun h =>
  absurd (h { isEditing := true, editableBlueprint := reviewBlueprint0 } rfl).1 (by decide)

/-- Claim C3 (amended): with the persistence collaborator absent, leaving edit
mode emits no effect at all (no call reaches any caller and no warning is
logged — the default no-op is invoked silently), does not throw (`toggleEdit`
is total), returns to read-only mode, and the read-only view shows exactly the
locally edited working copy; the `console.warn` branch fires only when a
non-function value is explicitly supplied for the collaborator. -/
theorem toggleEdit_absent_silent (s : FormState) (h : s.isEditing = true) :
    (toggleEdit SaveChangesProp.absent s).2 = [] ∧
    (toggleEdit SaveChangesProp.absent s).1.isEditing = false ∧
    readOnlyView (toggleEdit SaveChangesProp.absent s).1 = s.editableBlueprint ∧
    (toggleEdit SaveChangesProp.nonFunction s).2 = [FormEffect.warnedNotAFunction] := by
  refine ⟨?_, ?_, rfl, ?_⟩
  · simp [toggleEdit, h, isFunctionProp]
  · simp [toggleEdit, h]
  · simp [toggleEdit, h, isFunctionProp]

/-- Claim C3, witness: leaving edit mode on a concrete edited state (reference
id locally set) is silent and the read-only view keeps the edited copy. -/
theorem toggleEdit_absent_silent_witness :
    (toggleEdit SaveChangesProp.absent formEdited).2 = [] ∧
    (toggleEdit SaveChangesProp.absent formEdited).1.isEditing = false ∧
    readOnlyView (toggleEdit SaveChangesProp.absent formEdited).1 =
      formEdited.editableBlueprint ∧
    (toggleEdit SaveChangesProp.nonFunction formEdited).2 =
      [FormEffect.warnedNotAFunction] :=
  toggleEdit_absent_silent formEdited rfl

/-! ## The Blueprint Matcher's mount/timer behaviour -/

theorem reconcilePopup_isSome (op : Option PopupState) (oo : Bool) (p : PortalState) :
    (reconcilePopup op oo p).isSome = popupMounted p := by
  unfold reconcilePopup
  cases hm : popupMounted p
  · simp
  · cases op with
    | none => simp
    | some st => by_cases h2 : oo = p.isOpen <;> simp [h2]

theorem popupConsistent_applyPortalEvent (s : SysState) (p : PortalState) :
    popupConsistent (applyPortalEvent s p) :=
  reconcilePopup_isSome s.popup s.portal.isOpen p

theorem popupConsistent_setPopup (s : SysState) (st2 st : PopupState)
    (hp : s.popup = some st) (h : popupConsistent s) :
    popupConsistent { s with popup := some st2 } := by
  have h2 : s.popup.isSome = popupMounted s.portal := h
  rw [hp] at h2
  exact h2

theorem popupConsistent_applyEvent (s : SysState) (e : Ev) (h : popupConsistent s) :
    popupConsistent (applyEvent s e) := by
  cases e with
  | drop d => exact popupConsistent_applyPortalEvent s _
  | setSearch t => exact popupConsistent_applyPortalEvent s _
  | typeChange i t => exact popupConsistent_applyPortalEvent s _
  | checkbox i => exact popupConsistent_applyPortalEvent s _
  | bulkType t => exact popupConsistent_applyPortalEvent s _
  | done => exact popupConsistent_applyPortalEvent s _
  | deleteSel => exact popupConsistent_applyPortalEvent s _
  | next => exact popupConsistent_applyPortalEvent s _
  | cancelPopup =>
    rcases hp : s.popup with _ | st <;> simp only [applyEvent, hp]
    · exact h
    · split
      · exact popupConsistent_applyPortalEvent s _
      · exact h
  | timerFire =>
    rcases hp : s.popup with _ | st <;> simp only [applyEvent, hp]
    · exact h
    · split
      · exact popupConsistent_setPopup s _ st hp h
      · exact h
  | popupSearch t =>
    rcases hp : s.popup with _ | st <;> simp only [applyEvent, hp]
    · exact h
    · split
      · exact popupConsistent_setPopup s _ st hp h
      · exact h
  | selectCard i =>
    rcases hp : s.popup with _ | st <;> simp only [applyEvent, hp]
    · exact h
    · split
      · split
        · exact popupConsistent_setPopup s _ st hp h
        · exact h
      · exact h
  | confirm =>
    rcases hp : s.popup with _ | st <;> simp only [applyEvent, hp]
    · exact h
    · split
      · split
        · exact popupConsistent_applyPortalEvent s _
        · exact h
      · exact h
  | back =>
    simp only [applyEvent]
    split
    · exact h
    · exact popupConsistent_applyPortalEvent s _
  | submit =>
    simp only [applyEvent]
    split
    · exact h
    · exact popupConsistent_applyPortalEvent s _

theorem timerFire_of_popup (s : SysState) (st : PopupState) (hp : s.popup = some st)
    (ht : st.timerArmed = true) :
    (applyEvent s Ev.timerFire).popup =
      some { st with isAnalyzing := false, selected := some blueprint0
                   , timerArmed := false } := by
  simp [applyEvent, hp, ht]

theorem popupConsistent_runEvents (evs : List Ev) (s0 : SysState)
    (h : popupConsistent s0) : popupConsistent (runEvents s0 evs) := by
  induction evs generalizing s0 with
  | nil => exact h
  | cons e rest ih => exact ih (applyEvent s0 e) (popupConsistent_applyEvent s0 e h)

theorem reachable_popupConsistent (s : SysState) (hr : Reachable s) :
    popupConsistent s := by
  obtain ⟨evs, rfl⟩ := hr
  exact popupConsistent_runEvents evs initState rfl

/-- Claim C2, counterexample: the popup component stays mounted across a
Cancel, so its hook state survives. After open, timer, Cancel, the reopening
via Next finds `isAnalyzing` still false and the previous candidate still
selected: this opening does not start in the Analyzing state with fresh
state. -/
theorem claimC2_refuted : ¬ claimC2Statement := fun h =>
  absurd
    (h (runEvents initState
        [Ev.drop [(0, "chapter1.docx")], Ev.next, Ev.timerFire, Ev.cancelPopup]) Ev.next
      ⟨[Ev.drop [(0, "chapter1.docx")], Ev.next, Ev.timerFire, Ev.cancelPopup], rfl⟩ rfl rfl).1
    (by decide)

/-- Claim C2 (amended): openings that mount the `AnalysisPopup` freshly — the
initial opening, and every reopening through the Back transition after a
confirm (during the finalize step the portal's early return unmounts the
popup, discarding its hook state) — start in the Analyzing state with fresh
state (empty search, no candidate, timer armed), and the timer's firing
transitions to Presenting with the first catalog entry selected. A reopening
after a Cancel, by contrast, retains the previous hook state (see the
counterexample). -/
theorem back_reopen_fresh_analyzing (s : SysState) (hr : Reachable s)
    (h1 : s.portal.currentStep = Step.finalize)
    (h2 : s.portal.selectedBlueprint.isSome = true) :
    (applyEvent s Ev.back).popup = some (initialPopupState true) ∧
    (applyEvent s Ev.back).portal.isOpen = true ∧
    (applyEvent (applyEvent s Ev.back) Ev.timerFire).popup = some presentingFirst ∧
    (runEvents initState [Ev.drop [(0, "chapter1.docx")], Ev.next]).popup =
      some (initialPopupState true) ∧
    (applyEvent (runEvents initState [Ev.drop [(0, "chapter1.docx")], Ev.next])
        Ev.timerFire).popup = some presentingFirst := by
  have hc : s.popup.isSome = popupMounted s.portal := reachable_popupConsistent s hr
  have hm : popupMounted s.portal = false := by
    rcases ho : s.portal.selectedBlueprint with _ | b
    · rw [ho] at h2
      simp at h2
    · simp [popupMounted, h1, ho]
  have hnone : s.popup = none := by
    rw [hm] at hc
    rcases hp : s.popup with _ | st
    · rfl
    · rw [hp] at hc
      simp at hc
  have hback : applyEvent s Ev.back =
      applyPortalEvent s { s.portal with currentStep := Step.analyze, isOpen := true } := by
    simp [applyEvent, hm]
  have hpop : (applyEvent s Ev.back).popup = some (initialPopupState true) := by
    rw [hback]
    show reconcilePopup s.popup s.portal.isOpen
        { s.portal with currentStep := Step.analyze, isOpen := true } =
      some (initialPopupState true)
    rw [hnone]
    rfl
  exact ⟨hpop, by rw [hback]; rfl,
    timerFire_of_popup _ _ hpop rfl, rfl, rfl⟩

/-- Claim C2, witness: from the concrete reachable finalize state obtained by
Next, timer, Confirm, the Back transition reopens a fresh analyzing popup, and
the timer then presents the first catalog entry. -/
theorem back_reopen_fresh_analyzing_witness :
    (applyEvent (runEvents initState
        [Ev.drop [(0, "chapter1.docx")], Ev.next, Ev.timerFire, Ev.confirm]) Ev.back).popup =
      some (initialPopupState true) ∧
    (applyEvent (runEvents initState
        [Ev.drop [(0, "chapter1.docx")], Ev.next, Ev.timerFire, Ev.confirm])
        Ev.back).portal.isOpen = true ∧
    (applyEvent (applyEvent (runEvents initState
        [Ev.drop [(0, "chapter1.docx")], Ev.next, Ev.timerFire, Ev.confirm])
        Ev.back) Ev.timerFire).popup = some presentingFirst ∧
    (runEvents initState [Ev.drop [(0, "chapter1.docx")], Ev.next]).popup =
      some (initialPopupState true) ∧
    (applyEvent (runEvents initState [Ev.drop [(0, "chapter1.docx")], Ev.next])
        Ev.timerFire).popup = some presentingFirst :=
  back_reopen_fresh_analyzing _
    ⟨[Ev.drop [(0, "chapter1.docx")], Ev.next, Ev.timerFire, Ev.confirm], rfl⟩
    (by decide) (by decide)

end Portal
